import Mathlib

/-!
Shallow embedding of `rockit/focuser/ok3z/config.py`: the JSON configuration
schema (`CONFIG_SCHEMA`) and the `Config` constructor, plus the spec-level
motion/conversion models for the parts of the focuser core that live outside
this repository.

JSON numbers are modelled as rationals; an object is an association list of
fields.  The custom validators (`daemon_name`, `machine_name`) and the
`daemons`/`IP` attribute resolutions are external to this repository and are
passed in as function parameters.
-/

namespace Focusd

/-- A parsed JSON document, as produced by `json.load`. -/
inductive JsonValue where
  | null
  | bool (b : Bool)
  | num (q : ℚ)
  | str (s : String)
  | arr (items : List JsonValue)
  | obj (fields : List (String × JsonValue))

/-- The per-property schemas occurring in `CONFIG_SCHEMA`: a string (with an
optional custom validator name), an integer or number with optional bounds,
or an array of strings (each checked by an optional custom validator). -/
inductive PropSchema where
  | strS (custom : Option String)
  | intS (lo hi : Option ℚ)
  | numS (lo hi : Option ℚ)
  | arrStrS (custom : Option String)

/-- The custom validators handed to `validation.validate_config`
(`daemon_name_validator`, `machine_name_validator`): external code, modelled
as a function from validator name and value to accept/reject. -/
abbrev Validators := String → String → Bool

/-- The `required` list of `CONFIG_SCHEMA`. -/
def CONFIG_SCHEMA_required : List String :=
  ["daemon", "log_name", "control_machines", "serial_port", "serial_baud", "serial_timeout",
   "move_timeout", "steps_per_mm", "anti_backlash_mm", "focus_range_mm",
   "speed_mm_sec", "acceleration_mm_sec_sec"]

/-- The `properties` map of `CONFIG_SCHEMA`. -/
def CONFIG_SCHEMA_properties : List (String × PropSchema) :=
  [("daemon", .strS (some "daemon_name")),
   ("log_name", .strS none),
   ("control_machines", .arrStrS (some "machine_name")),
   ("serial_port", .strS none),
   ("serial_baud", .intS (some 38400) (some 38400)),
   ("serial_timeout", .numS (some 0) none),
   ("move_timeout", .numS (some 0) none),
   ("steps_per_mm", .intS (some 5088) (some 5088)),
   ("anti_backlash_mm", .numS (some 0) none),
   ("focus_range_mm", .numS (some 0) (some 9)),
   ("speed_mm_sec", .numS (some 0) none),
   ("acceleration_mm_sec_sec", .numS (some 0) none)]

/-- The `additionalProperties` flag of `CONFIG_SCHEMA` (set to `False`). -/
def CONFIG_SCHEMA_additionalProperties : Bool := false

/-- Apply an optional custom validator to a string value. -/
def applyCustom (v : Validators) (custom : Option String) (s : String) : Bool :=
  match custom with
  | none => true
  | some vname => v vname s

/-- A JSON number counts as an `integer` when it has no fractional part. -/
def isIntegral (q : ℚ) : Bool := q.den == 1

/-- Check the optional `min`/`max` bounds of a numeric property. -/
def boundsOk (lo hi : Option ℚ) (q : ℚ) : Bool :=
  (match lo with | none => true | some l => decide (l ≤ q)) &&
  (match hi with | none => true | some h => decide (q ≤ h))

/-- Validate one JSON value against one property schema. -/
def propValid (v : Validators) : PropSchema → JsonValue → Bool
  | .strS custom, .str s => applyCustom v custom s
  | .intS lo hi, .num q => isIntegral q && boundsOk lo hi q
  | .numS lo hi, .num q => boundsOk lo hi q
  | .arrStrS custom, .arr xs =>
      xs.all fun x =>
        match x with
        | .str s => applyCustom v custom s
        | _ => false
  | _, _ => false

/-- Model of `validation.validate_config(config_json, CONFIG_SCHEMA, ...)` as
a predicate: the document is an object, every `required` key is present, every
present field satisfies its declared property schema, and (since
`additionalProperties` is `False`) no field has an undeclared key. -/
def validateConfig (v : Validators) (j : JsonValue) : Bool :=
  match j with
  | .obj fields =>
      (CONFIG_SCHEMA_required.all fun k => (List.lookup k fields).isSome) &&
      (fields.all fun kv =>
        match List.lookup kv.1 CONFIG_SCHEMA_properties with
        | some ps => propValid v ps kv.2
        | none => CONFIG_SCHEMA_additionalProperties)
  | _ => false

/-- The settings object built by `Config.__init__`.  `daemon` and
`control_ips` hold the results of the external `getattr` resolutions. -/
structure Config where
  daemon : String
  log_name : String
  control_ips : List String
  serial_port : String
  serial_baud : ℤ
  serial_timeout : ℤ
  move_timeout : ℚ
  steps_per_mm : ℚ
  anti_backlash_mm : ℚ
  focus_range_mm : ℚ
  speed_mm_sec : ℚ
  acceleration_mm_sec_sec : ℚ
  deriving DecidableEq

/-- Python `int()` applied to a JSON number: truncation toward zero. -/
def pyInt (q : ℚ) : ℤ := q.num.tdiv (q.den : ℤ)

/-- Field access `config_json[k]` for a string-valued key. -/
def getStr (fields : List (String × JsonValue)) (k : String) : String :=
  match List.lookup k fields with
  | some (.str s) => s
  | _ => ""

/-- Field access `config_json[k]` for a number-valued key. -/
def getNum (fields : List (String × JsonValue)) (k : String) : ℚ :=
  match List.lookup k fields with
  | some (.num q) => q
  | _ => 0

/-- The string elements of a JSON array. -/
def strItems (xs : List JsonValue) : List String :=
  xs.filterMap fun x =>
    match x with
    | .str s => some s
    | _ => none

/-- Field access `config_json[k]` for an array-of-strings key. -/
def getStrList (fields : List (String × JsonValue)) (k : String) : List String :=
  match List.lookup k fields with
  | some (.arr xs) => strItems xs
  | _ => []

/-- The field assignments of `Config.__init__`, applied after validation has
succeeded.  `rd` models `getattr(daemons, ·)` and `ri` models
`getattr(IP, ·)`. -/
def buildConfig (rd ri : String → String) (fields : List (String × JsonValue)) : Config where
  daemon := rd (getStr fields "daemon")
  log_name := getStr fields "log_name"
  control_ips := (getStrList fields "control_machines").map ri
  serial_port := getStr fields "serial_port"
  serial_baud := pyInt (getNum fields "serial_baud")
  serial_timeout := pyInt (getNum fields "serial_timeout")
  move_timeout := getNum fields "move_timeout"
  steps_per_mm := getNum fields "steps_per_mm"
  anti_backlash_mm := getNum fields "anti_backlash_mm"
  focus_range_mm := getNum fields "focus_range_mm"
  speed_mm_sec := getNum fields "speed_mm_sec"
  acceleration_mm_sec_sec := getNum fields "acceleration_mm_sec_sec"

/-- Model of `Config.__init__`: the input is the result of opening and json-parsing the
file (`Except.error` models file-not-found and invalid JSON, both of which
throw before validation); a schema violation throws; otherwise the settings
object is built. -/
def Config.init (input : Except String JsonValue) (v : Validators)
    (rd ri : String → String) : Except String Config :=
  match input with
  | .error e => .error e
  | .ok (.obj fields) =>
      if validateConfig v (.obj fields) then .ok (buildConfig rd ri fields)
      else .error "schema violation"
  | .ok _ => .error "schema violation"

/-! ### Basic inversion lemmas about validation and construction -/

theorem lookup_mem {α β : Type} [BEq α] [LawfulBEq α] {k : α} {v : β} :
    ∀ {l : List (α × β)}, List.lookup k l = some v → (k, v) ∈ l := by
  intro l
  induction l with
  | nil => intro h; simp [List.lookup] at h
  | cons hd tl ih =>
      intro h
      rw [List.lookup] at h
      by_cases hk : k == hd.1
      · rw [hk] at h
        simp at h
        have : k = hd.1 := eq_of_beq hk
        subst this
        subst h
        exact List.mem_cons_self _ _
      · rw [Bool.not_eq_true] at hk
        rw [hk] at h
        exact List.mem_cons_of_mem _ (ih h)

theorem validate_present {v : Validators} {fields : List (String × JsonValue)} {k : String}
    (hval : validateConfig v (.obj fields) = true)
    (hk : k ∈ CONFIG_SCHEMA_required) :
    ∃ val, List.lookup k fields = some val := by
  rw [validateConfig, Bool.and_eq_true] at hval
  have h1 := hval.1
  rw [List.all_eq_true] at h1
  have := h1 k hk
  exact Option.isSome_iff_exists.mp this

theorem validate_field {v : Validators} {fields : List (String × JsonValue)} {k : String}
    {ps : PropSchema} {val : JsonValue}
    (hval : validateConfig v (.obj fields) = true)
    (hps : List.lookup k CONFIG_SCHEMA_properties = some ps)
    (hlk : List.lookup k fields = some val) :
    propValid v ps val = true := by
  rw [validateConfig, Bool.and_eq_true] at hval
  have h2 := hval.2
  rw [List.all_eq_true] at h2
  have hmem := lookup_mem hlk
  have := h2 (k, val) hmem
  simpa [hps] using this

theorem init_ok_inv {input : Except String JsonValue} {v : Validators}
    {rd ri : String → String} {cfg : Config}
    (h : Config.init input v rd ri = .ok cfg) :
    ∃ fields, input = .ok (.obj fields) ∧ validateConfig v (.obj fields) = true ∧
      cfg = buildConfig rd ri fields := by
  match input with
  | .error e => simp [Config.init] at h
  | .ok .null => simp [Config.init] at h
  | .ok (.bool b) => simp [Config.init] at h
  | .ok (.num q) => simp [Config.init] at h
  | .ok (.str s) => simp [Config.init] at h
  | .ok (.arr xs) => simp [Config.init] at h
  | .ok (.obj fields) =>
      refine ⟨fields, rfl, ?_, ?_⟩ <;> rw [Config.init] at h
      · by_contra hv
        rw [Bool.not_eq_true] at hv
        rw [if_neg (by simp [hv])] at h
        exact Except.noConfusion h
      · by_cases hv : validateConfig v (.obj fields) = true
        · rw [if_pos hv] at h
          exact (Except.ok.inj h).symm
        · rw [if_neg hv] at h
          exact absurd h (by simp)

instance {ε α : Type} [DecidableEq ε] [DecidableEq α] : DecidableEq (Except ε α) := fun a b =>
  match a, b with
  | .error x, .error y =>
      if h : x = y then isTrue (h ▸ rfl) else isFalse fun hh => h (by injection hh)
  | .ok x, .ok y =>
      if h : x = y then isTrue (h ▸ rfl) else isFalse fun hh => h (by injection hh)
  | .error _, .ok _ => isFalse fun hh => Except.noConfusion hh
  | .ok _, .error _ => isFalse fun hh => Except.noConfusion hh

theorem intS_fixed {v : Validators} {c : ℚ} {val : JsonValue}
    (hp : propValid v (.intS (some c) (some c)) val = true) : val = .num c := by
  match val with
  | .num q =>
      rw [propValid, Bool.and_eq_true] at hp
      have hb := hp.2
      rw [boundsOk, Bool.and_eq_true] at hb
      have h1 : c ≤ q := of_decide_eq_true hb.1
      have h2 : q ≤ c := of_decide_eq_true hb.2
      rw [le_antisymm h2 h1]
  | .null => simp [propValid] at hp
  | .bool b => simp [propValid] at hp
  | .str s => simp [propValid] at hp
  | .arr xs => simp [propValid] at hp
  | .obj fs => simp [propValid] at hp

theorem validate_serial_baud {v : Validators} {fields : List (String × JsonValue)}
    (hval : validateConfig v (.obj fields) = true) :
    List.lookup "serial_baud" fields = some (.num 38400) := by
  obtain ⟨val, hlk⟩ := validate_present (k := "serial_baud") hval
    (by simp [CONFIG_SCHEMA_required])
  have hp := validate_field hval (k := "serial_baud") rfl hlk
  rw [hlk, intS_fixed hp]

theorem validate_steps_per_mm {v : Validators} {fields : List (String × JsonValue)}
    (hval : validateConfig v (.obj fields) = true) :
    List.lookup "steps_per_mm" fields = some (.num 5088) := by
  obtain ⟨val, hlk⟩ := validate_present (k := "steps_per_mm") hval
    (by simp [CONFIG_SCHEMA_required])
  have hp := validate_field hval (k := "steps_per_mm") rfl hlk
  rw [hlk, intS_fixed hp]

/-- A schema-valid configuration: used as the concrete witness input. -/
def exampleFields : List (String × JsonValue) :=
  [("daemon", .str "localhost_test"),
   ("log_name", .str "focusd"),
   ("control_machines", .arr [.str "LocalHost"]),
   ("serial_port", .str "/dev/focuser"),
   ("serial_baud", .num 38400),
   ("serial_timeout", .num 5),
   ("move_timeout", .num 180),
   ("steps_per_mm", .num 5088),
   ("anti_backlash_mm", .num 1),
   ("focus_range_mm", .num 9),
   ("speed_mm_sec", .num 1),
   ("acceleration_mm_sec_sec", .num 1)]

/-- Concrete stand-ins for the external daemon/machine name validators. -/
def exampleValidators : Validators := fun vname s =>
  if vname = "daemon_name" then s = "localhost_test" else s = "LocalHost"

/-- The settings object built from `exampleFields`. -/
def exampleConfig : Config := buildConfig id id exampleFields

/-- C1: for every configuration accepted by schema validation, the resulting
`Config` has `serial_baud = 38400` and `steps_per_mm = 5088` (both pinned by
equal `min`/`max` bounds in `CONFIG_SCHEMA`). -/
theorem config_fixed_device_constants (input : Except String JsonValue) (v : Validators)
    (rd ri : String → String) (cfg : Config)
    (h : Config.init input v rd ri = .ok cfg) :
    cfg.serial_baud = 38400 ∧ cfg.steps_per_mm = 5088 := by
  obtain ⟨fields, hin, hval, hcfg⟩ := init_ok_inv h
  subst hcfg
  have hb := validate_serial_baud hval
  have hs := validate_steps_per_mm hval
  constructor
  · show pyInt (getNum fields "serial_baud") = 38400
    rw [getNum, hb]
    decide
  · show getNum fields "steps_per_mm" = 5088
    rw [getNum, hs]

/-- Witness for C1 at the concrete configuration `exampleFields`. -/
theorem config_fixed_device_constants_witness :
    Config.init (.ok (.obj exampleFields)) exampleValidators id id = .ok exampleConfig ∧
    exampleConfig.serial_baud = 38400 ∧ exampleConfig.steps_per_mm = 5088 :=
  ⟨by decide, config_fixed_device_constants (.ok (.obj exampleFields)) exampleValidators
    id id exampleConfig (by decide)⟩

/-- C2: configuration errors are fatal — a missing file or invalid JSON (both
modelled by the parse step returning an error) and a schema-violating document
all make `Config.__init__` throw, so no `Config` object is produced. -/
theorem config_errors_are_fatal (v : Validators) (rd ri : String → String) :
    (∀ e cfg, Config.init (.error e) v rd ri ≠ .ok cfg) ∧
    (∀ j cfg, validateConfig v j = false → Config.init (.ok j) v rd ri ≠ .ok cfg) := by
  constructor
  · intro e cfg h
    simp [Config.init] at h
  · intro j cfg hfalse h
    obtain ⟨fields, hin, hval, -⟩ := init_ok_inv h
    have hj : j = .obj fields := Except.ok.inj hin
    rw [hj, hval] at hfalse
    exact Bool.noConfusion hfalse

/-- Witness for C2: the empty JSON object violates the schema, and
construction from it yields no `Config`. -/
theorem config_errors_are_fatal_witness :
    Config.init (.ok (.obj [])) exampleValidators id id ≠ .ok exampleConfig :=
  (config_errors_are_fatal exampleValidators id id).2 (.obj []) exampleConfig (by decide)

/-- C6: removing any one of the twelve required keys makes schema validation
fail, so `Config.__init__` raises and no settings object is produced. -/
theorem config_missing_required_key_rejected (k : String) (hk : k ∈ CONFIG_SCHEMA_required)
    (fields : List (String × JsonValue)) (hmiss : List.lookup k fields = none)
    (v : Validators) (rd ri : String → String) (cfg : Config) :
    CONFIG_SCHEMA_required =
      ["daemon", "log_name", "control_machines", "serial_port", "serial_baud", "serial_timeout",
       "move_timeout", "steps_per_mm", "anti_backlash_mm", "focus_range_mm",
       "speed_mm_sec", "acceleration_mm_sec_sec"] ∧
    validateConfig v (.obj fields) = false ∧
    Config.init (.ok (.obj fields)) v rd ri ≠ .ok cfg := by
  have hfalse : validateConfig v (.obj fields) = false := by
    cases hval : validateConfig v (.obj fields) with
    | false => rfl
    | true =>
        obtain ⟨val, hlk⟩ := validate_present hval hk
        rw [hmiss] at hlk
        exact Option.noConfusion hlk
  refine ⟨rfl, hfalse, fun h => ?_⟩
  obtain ⟨fields2, hin, hval, -⟩ := init_ok_inv h
  have hf : JsonValue.obj fields = JsonValue.obj fields2 := Except.ok.inj hin
  rw [← JsonValue.obj.inj hf, hfalse] at hval
  exact Bool.noConfusion hval

/-- Witness for C6: a configuration lacking the required key `daemon` is
rejected. -/
theorem config_missing_required_key_rejected_witness :
    validateConfig exampleValidators (.obj [("log_name", .str "focusd")]) = false ∧
    Config.init (.ok (.obj [("log_name", .str "focusd")])) exampleValidators id id ≠
      .ok exampleConfig :=
  (config_missing_required_key_rejected "daemon" (by decide)
    [("log_name", .str "focusd")] rfl exampleValidators id id exampleConfig).2

/-- C8: since `additionalProperties` is `False`, a configuration containing
any key outside the twelve declared properties is rejected by validation and
`Config.__init__` raises. -/
theorem config_additional_property_rejected (fields : List (String × JsonValue))
    (k : String) (val : JsonValue) (hmem : (k, val) ∈ fields)
    (hnot : List.lookup k CONFIG_SCHEMA_properties = none)
    (v : Validators) (rd ri : String → String) (cfg : Config) :
    CONFIG_SCHEMA_additionalProperties = false ∧
    validateConfig v (.obj fields) = false ∧
    Config.init (.ok (.obj fields)) v rd ri ≠ .ok cfg := by
  have hfalse : validateConfig v (.obj fields) = false := by
    cases hval : validateConfig v (.obj fields) with
    | false => rfl
    | true =>
        rw [validateConfig, Bool.and_eq_true] at hval
        have h2 := hval.2
        rw [List.all_eq_true] at h2
        have := h2 (k, val) hmem
        rw [show (k, val).1 = k from rfl, hnot] at this
        exact Bool.noConfusion this
  refine ⟨rfl, hfalse, fun h => ?_⟩
  obtain ⟨fields2, hin, hval, -⟩ := init_ok_inv h
  have hf : JsonValue.obj fields = JsonValue.obj fields2 := Except.ok.inj hin
  rw [← JsonValue.obj.inj hf, hfalse] at hval
  exact Bool.noConfusion hval

/-- A valid configuration with one extra, undeclared key prepended. -/
def extraKeyFields : List (String × JsonValue) :=
  ("serial_retries", .num 3) :: exampleFields

/-- Witness for C8: `extraKeyFields` carries the undeclared key
`serial_retries` on top of an otherwise fully valid configuration, and is
rejected. -/
theorem config_additional_property_rejected_witness :
    validateConfig exampleValidators (.obj extraKeyFields) = false ∧
    Config.init (.ok (.obj extraKeyFields)) exampleValidators id id ≠ .ok exampleConfig :=
  (config_additional_property_rejected extraKeyFields "serial_retries" (.num 3)
    (List.mem_cons_self _ _) rfl exampleValidators id id exampleConfig).2

theorem validate_focus_range {v : Validators} {fields : List (String × JsonValue)}
    (hval : validateConfig v (.obj fields) = true) :
    ∃ q : ℚ, List.lookup "focus_range_mm" fields = some (.num q) ∧ 0 ≤ q ∧ q ≤ 9 := by
  obtain ⟨val, hlk⟩ := validate_present (k := "focus_range_mm") hval
    (by simp [CONFIG_SCHEMA_required])
  have hp := validate_field hval (k := "focus_range_mm") rfl hlk
  match val with
  | .num q =>
      have hb : boundsOk (some 0) (some 9) q = true := hp
      rw [boundsOk, Bool.and_eq_true] at hb
      exact ⟨q, hlk, of_decide_eq_true hb.1, of_decide_eq_true hb.2⟩
  | .null => exact absurd hp (by simp [propValid])
  | .bool b => exact absurd hp (by simp [propValid])
  | .str s => exact absurd hp (by simp [propValid])
  | .arr xs => exact absurd hp (by simp [propValid])
  | .obj fs => exact absurd hp (by simp [propValid])

/-- C4: every accepted configuration has `focus_range_mm ∈ [0, 9]`, so the
travel/clamp range `[0, focus_range_mm * steps_per_mm]` is contained in
`[0, 9 * 5088] = [0, 45792]` steps. -/
theorem config_focus_range_bounded (input : Except String JsonValue) (v : Validators)
    (rd ri : String → String) (cfg : Config)
    (h : Config.init input v rd ri = .ok cfg) :
    0 ≤ cfg.focus_range_mm ∧ cfg.focus_range_mm ≤ 9 ∧
    0 ≤ cfg.focus_range_mm * cfg.steps_per_mm ∧
    cfg.focus_range_mm * cfg.steps_per_mm ≤ 45792 := by
  obtain ⟨fields, hin, hval, hcfg⟩ := init_ok_inv h
  subst hcfg
  obtain ⟨q, hlk, hq0, hq9⟩ := validate_focus_range hval
  have hfr : (buildConfig rd ri fields).focus_range_mm = q := by
    show getNum fields "focus_range_mm" = q
    rw [getNum, hlk]
  have hspm : (buildConfig rd ri fields).steps_per_mm = 5088 := by
    show getNum fields "steps_per_mm" = 5088
    rw [getNum, validate_steps_per_mm hval]
  rw [hfr, hspm]
  refine ⟨hq0, hq9, mul_nonneg hq0 (by norm_num), ?_⟩
  calc q * 5088 ≤ 9 * 5088 := by
        exact mul_le_mul_of_nonneg_right hq9 (by norm_num)
    _ = 45792 := by norm_num

/-- Witness for C4 at the concrete configuration `exampleFields`
(`focus_range_mm = 9`). -/
theorem config_focus_range_bounded_witness :
    0 ≤ exampleConfig.focus_range_mm ∧ exampleConfig.focus_range_mm ≤ 9 ∧
    0 ≤ exampleConfig.focus_range_mm * exampleConfig.steps_per_mm ∧
    exampleConfig.focus_range_mm * exampleConfig.steps_per_mm ≤ 45792 :=
  config_focus_range_bounded (.ok (.obj exampleFields)) exampleValidators id id
    exampleConfig (by decide)

/-- C3 (amended): the stored `serial_timeout` is the configured value passed
through Python `int()` (truncation), and agrees with the configured value
exactly when that value is an integer. -/
theorem config_serial_timeout_truncated (fields : List (String × JsonValue))
    (v : Validators) (rd ri : String → String) (cfg : Config)
    (h : Config.init (.ok (.obj fields)) v rd ri = .ok cfg) :
    cfg.serial_timeout = pyInt (getNum fields "serial_timeout") ∧
    ((getNum fields "serial_timeout").den = 1 →
      (cfg.serial_timeout : ℚ) = getNum fields "serial_timeout") := by
  obtain ⟨fields2, hin, hval, hcfg⟩ := init_ok_inv h
  rw [← JsonValue.obj.inj (Except.ok.inj hin)] at hcfg
  subst hcfg
  refine ⟨rfl, fun hden => ?_⟩
  show (pyInt (getNum fields "serial_timeout") : ℚ) = getNum fields "serial_timeout"
  rw [pyInt, hden]
  rw [show ((1 : ℕ) : ℤ) = 1 from rfl, Int.tdiv_one]
  exact Rat.coe_int_num_of_den_eq_one hden

/-- Witness for C3-amended at `exampleFields` (`serial_timeout = 5`, an
integer, so the stored value round-trips exactly). -/
theorem config_serial_timeout_truncated_witness :
    exampleConfig.serial_timeout = pyInt (getNum exampleFields "serial_timeout") ∧
    (exampleConfig.serial_timeout : ℚ) = getNum exampleFields "serial_timeout" :=
  ⟨(config_serial_timeout_truncated exampleFields exampleValidators id id
      exampleConfig (by decide)).1,
   (config_serial_timeout_truncated exampleFields exampleValidators id id
      exampleConfig (by decide)).2 (by decide)⟩

/-- A schema-valid configuration whose `serial_timeout` is the non-integer
number 5/2. -/
def halfTimeoutFields : List (String × JsonValue) :=
  [("daemon", .str "localhost_test"),
   ("log_name", .str "focusd"),
   ("control_machines", .arr [.str "LocalHost"]),
   ("serial_port", .str "/dev/focuser"),
   ("serial_baud", .num 38400),
   ("serial_timeout", .num (mkRat 5 2)),
   ("move_timeout", .num 180),
   ("steps_per_mm", .num 5088),
   ("anti_backlash_mm", .num 1),
   ("focus_range_mm", .num 9),
   ("speed_mm_sec", .num 1),
   ("acceleration_mm_sec_sec", .num 1)]

/-- C3 counterexample: a configured `serial_timeout` of 5/2 seconds passes
schema validation (`number`, `min 0`), yet the stored `serial_timeout` is
`int(5/2) = 2`, not the configured value. -/
theorem config_serial_timeout_counterexample :
    List.lookup "serial_timeout" halfTimeoutFields = some (.num (mkRat 5 2)) ∧
    Config.init (.ok (.obj halfTimeoutFields)) exampleValidators id id =
      .ok (buildConfig id id halfTimeoutFields) ∧
    ((buildConfig id id halfTimeoutFields).serial_timeout : ℚ) = 2 ∧
    (2 : ℚ) ≠ mkRat 5 2 := by
  refine ⟨rfl, by decide, by decide, by decide⟩

theorem all_str_exists {p : JsonValue → Bool} (hp : ∀ x, p x = true → ∃ s, x = .str s) :
    ∀ {xs : List JsonValue}, xs.all p = true →
      ∃ ms : List String, xs = ms.map JsonValue.str := by
  intro xs
  induction xs with
  | nil => intro _; exact ⟨[], rfl⟩
  | cons hd tl ih =>
      intro h
      rw [List.all_cons, Bool.and_eq_true] at h
      obtain ⟨s, hs⟩ := hp hd h.1
      obtain ⟨ms, hms⟩ := ih h.2
      exact ⟨s :: ms, by rw [hs, hms, List.map_cons]⟩

theorem strItems_map_str (ms : List String) : strItems (ms.map JsonValue.str) = ms := by
  induction ms with
  | nil => rfl
  | cons hd tl ih =>
      show hd :: strItems (tl.map JsonValue.str) = hd :: tl
      rw [ih]

/-- C9: for every accepted configuration, `control_ips` holds exactly one
resolved IP per entry of the `control_machines` array, in the same order:
the array is a list of machine-name strings `ms` and `control_ips` is `ms`
mapped through the `getattr(IP, ·)` resolution, so length and order are
preserved. -/
theorem config_control_ips_in_order (fields : List (String × JsonValue)) (v : Validators)
    (rd ri : String → String) (cfg : Config) (xs : List JsonValue)
    (h : Config.init (.ok (.obj fields)) v rd ri = .ok cfg)
    (hx : List.lookup "control_machines" fields = some (.arr xs)) :
    ∃ ms : List String, xs = ms.map JsonValue.str ∧ cfg.control_ips = ms.map ri ∧
      cfg.control_ips.length = xs.length := by
  obtain ⟨fields2, hin, hval, hcfg⟩ := init_ok_inv h
  have hf : fields = fields2 := JsonValue.obj.inj (Except.ok.inj hin)
  subst hf
  subst hcfg
  have hp := validate_field hval (k := "control_machines") rfl hx
  have hall : (xs.all fun x =>
      match x with
      | .str s => applyCustom v (some "machine_name") s
      | _ => false) = true := hp
  obtain ⟨ms, hms⟩ := all_str_exists (p := fun x =>
      match x with
      | .str s => applyCustom v (some "machine_name") s
      | _ => false)
    (fun x hx2 => by
      match x with
      | .str s => exact ⟨s, rfl⟩
      | .null => exact absurd hx2 (by simp)
      | .bool b => exact absurd hx2 (by simp)
      | .num q => exact absurd hx2 (by simp)
      | .arr ys => exact absurd hx2 (by simp)
      | .obj fs => exact absurd hx2 (by simp)) hall
  have hips : (buildConfig rd ri fields).control_ips = ms.map ri := by
    show (getStrList fields "control_machines").map ri = ms.map ri
    rw [getStrList, hx, hms]
    show (strItems (ms.map JsonValue.str)).map ri = ms.map ri
    rw [strItems_map_str]
  refine ⟨ms, hms, hips, ?_⟩
  rw [hips, hms, List.length_map, List.length_map]

/-- Witness for C9 at `exampleFields` (one machine, `LocalHost`). -/
theorem config_control_ips_in_order_witness :
    ∃ ms : List String, [JsonValue.str "LocalHost"] = ms.map JsonValue.str ∧
      exampleConfig.control_ips = ms.map id ∧
      exampleConfig.control_ips.length = [JsonValue.str "LocalHost"].length :=
  config_control_ips_in_order exampleFields exampleValidators id id exampleConfig
    [JsonValue.str "LocalHost"] (by decide) rfl

/-- The configuration `exampleFields` with an empty `control_machines` array. -/
def emptyMachinesFields : List (String × JsonValue) :=
  [("daemon", .str "localhost_test"),
   ("log_name", .str "focusd"),
   ("control_machines", .arr []),
   ("serial_port", .str "/dev/focuser"),
   ("serial_baud", .num 38400),
   ("serial_timeout", .num 5),
   ("move_timeout", .num 180),
   ("steps_per_mm", .num 5088),
   ("anti_backlash_mm", .num 1),
   ("focus_range_mm", .num 9),
   ("speed_mm_sec", .num 1),
   ("acceleration_mm_sec_sec", .num 1)]

/-- C10: a configuration whose `control_machines` is the empty array passes
schema validation, and the resulting `Config` authorizes no caller
addresses: `control_ips = []`. -/
theorem config_empty_control_machines_ok :
    validateConfig exampleValidators (.obj emptyMachinesFields) = true ∧
    Config.init (.ok (.obj emptyMachinesFields)) exampleValidators id id =
      .ok (buildConfig id id emptyMachinesFields) ∧
    (buildConfig id id emptyMachinesFields).control_ips = [] := by
  refine ⟨by decide, by decide, by decide⟩

/-- The sign of a move delta: +1 outward, -1 inward, 0 for a zero-length
move. -/
def intSign (d : ℤ) : ℤ := if 0 < d then 1 else if d < 0 then -1 else 0

/-- The state the motion protocol tracks between moves: the current position
estimate (steps) and the direction of the last completed move. -/
structure MoveState where
  position : ℤ
  lastDir : ℤ

/-- Modelled from the spec: the Motion Protocol State Machine (`encode_move`)
is not part of this repository's sources (only its configuration constants
are under src).  Following spec section 4.2: if the direction of travel
differs from the last completed move's direction, an overshoot command to
`target_steps - sign(delta)*AntiBacklashOffset` is issued first and, after
it completes, the final approach command to `target_steps`; if the direction
is unchanged a single direct move command is issued.  The returned list holds
the issued commands in order. -/
def encode_move (offset : ℤ) (s : MoveState) (target : ℤ) : List ℤ × MoveState :=
  let dir := intSign (target - s.position)
  if dir ≠ s.lastDir then
    ([target - dir * offset, target], ⟨target, dir⟩)
  else
    ([target], ⟨target, dir⟩)

/-- The command batches issued over a sequence of move requests. -/
def runMoves (offset : ℤ) : MoveState → List ℤ → List (List ℤ)
  | _, [] => []
  | s, t :: ts =>
      let r := encode_move offset s t
      r.1 :: runMoves offset r.2 ts

/-- C5: a move whose direction differs from the last completed move's
direction issues exactly two commands — the overshoot to
`target - sign(delta) * offset` followed by the approach to `target` —
and a move in the unchanged direction issues exactly one direct command. -/
theorem encode_move_backlash_commands (offset : ℤ) (s : MoveState) (target : ℤ) :
    (intSign (target - s.position) ≠ s.lastDir →
      (encode_move offset s target).1 =
        [target - intSign (target - s.position) * offset, target] ∧
      (encode_move offset s target).1.length = 2) ∧
    (intSign (target - s.position) = s.lastDir →
      (encode_move offset s target).1 = [target] ∧
      (encode_move offset s target).1.length = 1) := by
  refine ⟨fun hne => ?_, fun heq => ?_⟩
  · simp only [encode_move]
    rw [if_pos hne]
    exact ⟨rfl, rfl⟩
  · simp only [encode_move]
    rw [if_neg fun hn => hn heq]
    exact ⟨rfl, rfl⟩

/-- Witness for C5: with `steps_per_mm = 5088` and an offset of 100 steps, a
reversal from an outward move at 15264 (3 mm) down to 5088 (1 mm) issues the
overshoot/approach pair `[5188, 5088]`, while a continued inward move to
2544 issues the single command `[2544]`. -/
theorem encode_move_backlash_commands_witness :
    (encode_move 100 ⟨15264, 1⟩ 5088).1 = [5188, 5088] ∧
    (encode_move 100 ⟨5088, -1⟩ 2544).1 = [2544] :=
  ⟨((encode_move_backlash_commands 100 ⟨15264, 1⟩ 5088).1 (by decide)).1,
   ((encode_move_backlash_commands 100 ⟨5088, -1⟩ 2544).2 (by decide)).1⟩

/-- Modelled from the spec: the step/millimetre conversion is not part of
this repository's sources.  Spec section 3: positions are reported in
millimetres via `mm = steps / steps_per_mm`. -/
def steps_to_mm (spm : ℚ) (steps : ℤ) : ℚ := (steps : ℚ) / spm

/-- Modelled from the spec: the inverse conversion from a millimetre request
to the device's native steps rounds to the nearest step. -/
def mm_to_steps (spm : ℚ) (mm : ℚ) : ℤ := round (mm * spm)

/-- C7: with `steps_per_mm = 5088`, converting a step count in the travel
range to millimetres and back returns it exactly (hence within one step),
and converting a millimetre value to steps and back lands within one step's
rounding error (`steps_to_mm 5088 1 = 1/5088` mm). -/
theorem conversion_round_trip (steps : ℤ) (mm : ℚ)
    (h0 : 0 ≤ steps) (h1 : steps ≤ 45792) :
    mm_to_steps 5088 (steps_to_mm 5088 steps) = steps ∧
    |steps_to_mm 5088 (mm_to_steps 5088 mm) - mm| ≤ steps_to_mm 5088 1 := by
  have h5 : (5088 : ℚ) ≠ 0 := by norm_num
  constructor
  · rw [mm_to_steps, steps_to_mm, div_mul_cancel₀ _ h5, round_intCast]
  · rw [steps_to_mm, mm_to_steps]
    have hrw : ((round (mm * 5088) : ℤ) : ℚ) / 5088 - mm =
        (((round (mm * 5088) : ℤ) : ℚ) - mm * 5088) / 5088 := by
      field_simp
      ring
    rw [hrw, abs_div, abs_of_pos (by norm_num : (0:ℚ) < 5088)]
    have hb := abs_sub_round (mm * 5088)
    rw [abs_sub_comm] at hb
    have hd : |((round (mm * 5088) : ℤ) : ℚ) - mm * 5088| / 5088 ≤ (1 / 2) / 5088 :=
      (div_le_div_iff_of_pos_right (by norm_num)).mpr hb
    refine le_trans hd ?_
    rw [steps_to_mm]
    norm_num

/-- Witness for C7 at step count 5088 (1 mm) and request 1/3 mm. -/
theorem conversion_round_trip_witness :
    mm_to_steps 5088 (steps_to_mm 5088 5088) = 5088 ∧
    |steps_to_mm 5088 (mm_to_steps 5088 (mkRat 1 3)) - mkRat 1 3| ≤ steps_to_mm 5088 1 :=
  conversion_round_trip 5088 (mkRat 1 3) (by decide) (by decide)

end Focusd
